import Mathlib

/-!
# Verification of the middleware demo server (`src/index.js`)

Shallow embedding of the Express application in `src/index.js`:

The file first imports `express` and `morgan` (lines 1-2), then reads:

```js
const myMiddleware = (req, res) => {
  console.log("Hello, from my middleware")
}

const app = express();

app.get("/hi", (req, res) => {
  res.send("Hi")
});

app.get("/bye", (req, res) => {
  res.send("Bye")
});

app.listen(3000, () => {
  console.log("Listening on port 3000");
});
```

Handler units are modelled as named functions from a request to an effect
record (console log lines, the response written via `res.send` if any, the
number of times the continuation `next` was invoked, and a thrown exception
if any).  The Express dispatch loop itself is library code, not part of
`src/`; it is modelled from the spec's description of the pipeline
(run global units, then route-specific units, then the terminal handler,
in order; default 404 when the sequence is exhausted without a response;
default 500 when a unit throws).
-/

/-- An incoming HTTP request as the handlers can observe it. -/
structure Request where
  method : String
  path : String
  headers : List (String × String)
  query : List (String × String)
  body : String
deriving DecidableEq, Repr

/-- An HTTP response: status code and body.  `res.send("Hi")` with no prior
`res.status(...)` produces status 200, Express's default. -/
structure Response where
  status : Nat
  body : String
deriving DecidableEq, Repr

/-- The observable effects of running one handler unit on one request:
the `console.log` lines it emits, the terminal response it writes via
`res.send` (if any), how many times it invokes the continuation `next`,
and the exception it throws (if any). -/
structure HandlerResult where
  logs : List String
  response : Option Response
  nextCalls : Nat
  exn : Option String
deriving DecidableEq, Repr

/-- A handler unit: a named JavaScript function value.  `arity` is the
number of declared parameters (`(req, res)` has arity 2; a middleware
accepting `next` would have arity 3). -/
structure Handler where
  name : String
  arity : Nat
  run : Request → HandlerResult

/-- `const myMiddleware = (req, res) => { console.log("Hello, from my middleware") }`
(src/index.js lines 4-6): a plain two-parameter handler that only logs a
fixed string; it writes no response, declares no `next` parameter and
invokes no continuation. -/
def myMiddleware : Handler :=
  { name := "myMiddleware"
    arity := 2
    run := fun _ =>
      { logs := ["Hello, from my middleware"]
        response := none
        nextCalls := 0
        exn := none } }

/-- The terminal handler of `app.get("/hi", ...)` (src/index.js lines 10-12):
`(req, res) => { res.send("Hi") }`. -/
def hiHandler : Handler :=
  { name := "hiHandler"
    arity := 2
    run := fun _ =>
      { logs := []
        response := some { status := 200, body := "Hi" }
        nextCalls := 0
        exn := none } }

/-- The terminal handler of `app.get("/bye", ...)` (src/index.js lines 14-16):
`(req, res) => { res.send("Bye") }`. -/
def byeHandler : Handler :=
  { name := "byeHandler"
    arity := 2
    run := fun _ =>
      { logs := []
        response := some { status := 200, body := "Bye" }
        nextCalls := 0
        exn := none } }

/-- A registered route: HTTP method, path, the ordered route-specific
middleware units and the terminal handler. -/
structure Route where
  method : String
  path : String
  middleware : List Handler
  terminal : Handler

/-- The Express application: application-wide (global) units registered via
`app.use`, and the route table in registration order. -/
structure App where
  globalUnits : List Handler
  routes : List Route

/-- The application built by src/index.js: no `app.use` call is made (morgan
is imported but never used, `myMiddleware` is never attached), and two routes
are registered, each with no route-specific middleware. -/
def app : App :=
  { globalUnits := []
    routes :=
      [ { method := "GET", path := "/hi", middleware := [], terminal := hiHandler }
      , { method := "GET", path := "/bye", middleware := [], terminal := byeHandler } ] }

/-- Route lookup: the first registered route whose method and path match the
request exactly. -/
def findRoute (a : App) (req : Request) : Option Route :=
  a.routes.find? fun rt => rt.method == req.method && rt.path == req.path

/-- Outcome of running a handler sequence: a terminal response was written,
the sequence was exhausted with every unit passing control on, a unit
neither responded nor invoked the continuation (the request hangs at that
unit), or a unit threw. -/
inductive SeqOutcome where
  | responded (resp : Response)
  | exhausted
  | hung
  | errored (msg : String)
deriving DecidableEq, Repr

/-- Result of running a handler sequence: the accumulated console log lines,
the names of the units that actually ran (in order), and the outcome. -/
structure SeqResult where
  logs : List String
  trace : List String
  outcome : SeqOutcome
deriving DecidableEq, Repr

/-- Modelled from the spec: the pipeline's sequential execution of handler
units (Express library code, not in src/).  Each unit runs to completion;
a written response terminates the sequence, a thrown exception aborts it,
invoking the continuation passes control to the next unit, and doing
neither leaves the request hanging at that unit. -/
def runSeq (req : Request) : List Handler → SeqResult
  | [] => { logs := [], trace := [], outcome := .exhausted }
  | h :: rest =>
    let r := h.run req
    match r.exn with
    | some m => { logs := r.logs, trace := [h.name], outcome := .errored m }
    | none =>
      match r.response with
      | some resp => { logs := r.logs, trace := [h.name], outcome := .responded resp }
      | none =>
        if r.nextCalls = 0 then
          { logs := r.logs, trace := [h.name], outcome := .hung }
        else
          let k := runSeq req rest
          { logs := r.logs ++ k.logs, trace := h.name :: k.trace, outcome := k.outcome }

/-- Modelled from the spec: Express's default not-found response, emitted
when the handler sequence is exhausted without a terminal response
(`Cannot GET /...`, status 404). -/
def notFoundResponse (req : Request) : Response :=
  { status := 404, body := "Cannot " ++ req.method ++ " " ++ req.path }

/-- Modelled from the spec: Express's default internal-error response,
emitted when a handler unit throws (status 500). -/
def internalErrorResponse : Response :=
  { status := 500, body := "Internal Server Error" }

/-- The overall result of dispatching one request: console log lines, the
names of the handler units that ran, and the response sent to the client
(`none` means the connection was left hanging). -/
structure DispatchResult where
  logs : List String
  trace : List String
  response : Option Response
deriving DecidableEq, Repr

/-- Modelled from the spec: how the pipeline finishes a request from a run
sequence result — pass through a written response, emit the default 404
when the sequence is exhausted, emit the default 500 and log the error when
a unit threw, and leave the connection hanging when a unit stalled. -/
def finish (req : Request) (s : SeqResult) : DispatchResult :=
  match s.outcome with
  | .responded r => { logs := s.logs, trace := s.trace, response := some r }
  | .exhausted => { logs := s.logs, trace := s.trace, response := some (notFoundResponse req) }
  | .hung => { logs := s.logs, trace := s.trace, response := none }
  | .errored m =>
      { logs := s.logs ++ ["Error: " ++ m]
        trace := s.trace
        response := some internalErrorResponse }

/-- The handler sequence dispatch assembles for a request: the global units,
then — when a route matches — its route-specific units and its terminal
handler. -/
def dispatchSeq (a : App) (req : Request) : List Handler :=
  a.globalUnits ++
    (match findRoute a req with
     | some rt => rt.middleware ++ [rt.terminal]
     | none => [])

/-- Modelled from the spec: dispatching one request — run the assembled
sequence and finish with the framework defaults. -/
def dispatch (a : App) (req : Request) : DispatchResult :=
  finish req (runSeq req (dispatchSeq a req))

/-- The effective sequence exactly as the spec words it: "global units ++
route-specific units ++ terminal handler" (empty route part when no route
matches, in which case the default not-found response stands in for the
terminal handler). -/
def specEffectiveSeq (a : App) (req : Request) : List Handler :=
  a.globalUnits ++
    (match findRoute a req with
     | some rt => rt.middleware ++ [rt.terminal]
     | none => [])

/-- All handler units registered on the application: the global units and
every route's route-specific middleware (terminal handlers excluded). -/
def registeredMiddleware (a : App) : List Handler :=
  a.globalUnits ++ a.routes.flatMap (·.middleware)

/-- All handler units that dispatch can ever run for this application:
registered middleware plus the terminal handlers. -/
def registeredUnits (a : App) : List Handler :=
  a.globalUnits ++ a.routes.flatMap (fun rt => rt.middleware ++ [rt.terminal])

/-- The handler units defined in src/index.js, registered or not:
`myMiddleware` (lines 4-6) and the two route terminals. -/
def programUnits : List Handler :=
  [myMiddleware, hiHandler, byeHandler]

/-- A sample request, used for concrete evaluations. -/
def sampleReq (method path : String) : Request :=
  { method := method, path := path, headers := [], query := [], body := "" }

/-- `pat` occurs as a contiguous substring of `s` (character-level check). -/
def stringContains (s pat : String) : Bool :=
  (List.range (s.data.length + 1)).any fun i => pat.data.isPrefixOf (s.data.drop i)

/-- A hypothetical handler unit that throws; no unit in src/ throws, this
value only exercises the pipeline's error path. -/
def boomHandler : Handler :=
  { name := "boomHandler"
    arity := 3
    run := fun _ =>
      { logs := [], response := none, nextCalls := 0, exn := some "boom" } }

/-- The port passed to `app.listen` (src/index.js line 18). -/
def listenPort : Nat := 3000

/-- The log line emitted by the listen callback (src/index.js line 19). -/
def listenLogLine : String := "Listening on port 3000"

/-- Modelled from the spec: the CLI surface is a single start command with
no flags (missing from src/: the npm start wrapper). -/
def cliFlags : List String := []

/-- Modelled from the spec: the program consumes no environment variables
(src/index.js reads none). -/
def consumedEnvVars : List String := []

/-- Outcome of the server process: its exit code and an optional diagnostic
message printed on failure. -/
structure ProcessOutcome where
  exitCode : Nat
  diagnostic : Option String
deriving DecidableEq, Repr

/-- Modelled from the spec: process termination (Node runtime behavior, not
in src/) — clean shutdown exits with code 0; a startup failure such as the
port already being in use is fatal and exits non-zero with a diagnostic. -/
def startProcess (portInUse : Bool) : ProcessOutcome :=
  if portInUse then
    { exitCode := 1
      diagnostic := some "Error: listen EADDRINUSE: address already in use :::3000" }
  else
    { exitCode := 0, diagnostic := none }

/-- The route registered for GET /hi. -/
def hiRoute : Route :=
  { method := "GET", path := "/hi", middleware := [], terminal := hiHandler }

/-- The route registered for GET /bye. -/
def byeRoute : Route :=
  { method := "GET", path := "/bye", middleware := [], terminal := byeHandler }

lemma findRoute_app (req : Request) :
    findRoute app req =
      if req.method = "GET" ∧ req.path = "/hi" then some hiRoute
      else if req.method = "GET" ∧ req.path = "/bye" then some byeRoute
      else none := by
  by_cases h1 : req.method = "GET"
  · by_cases h2 : req.path = "/hi"
    · simp [findRoute, app, List.find?, h1, h2, hiRoute]
    · by_cases h3 : req.path = "/bye"
      · simp [findRoute, app, List.find?, h1, h2, h3, byeRoute]
      · have e2 : ("/hi" == req.path) = false :=
          beq_eq_false_iff_ne.mpr fun h => h2 h.symm
        have e3 : ("/bye" == req.path) = false :=
          beq_eq_false_iff_ne.mpr fun h => h3 h.symm
        simp [findRoute, app, List.find?, h1, h2, h3, e2, e3]
  · have e1 : ("GET" == req.method) = false :=
      beq_eq_false_iff_ne.mpr fun h => h1 h.symm
    simp [findRoute, app, List.find?, h1, e1]

/-- C1: for every registered route, a request to it yields the documented
literal body and status 200: any GET request to /hi gets status 200 with
body "Hi", and any GET request to /bye gets status 200 with body "Bye". -/
theorem registered_routes_literal_responses (req : Request) :
    (req.method = "GET" → req.path = "/hi" →
      (dispatch app req).response = some { status := 200, body := "Hi" }) ∧
    (req.method = "GET" → req.path = "/bye" →
      (dispatch app req).response = some { status := 200, body := "Bye" }) := by
  constructor
  · intro hm hp
    simp only [dispatch, dispatchSeq, findRoute_app, hm, hp]
    simp [runSeq, finish, hiRoute, hiHandler]
  · intro hm hp
    simp only [dispatch, dispatchSeq, findRoute_app, hm, hp]
    simp [runSeq, finish, byeRoute, byeHandler]

/-- C1 witness: the two scenarios at concrete requests. -/
theorem registered_routes_literal_responses_witness :
    (dispatch app (sampleReq "GET" "/hi")).response = some { status := 200, body := "Hi" } ∧
    (dispatch app (sampleReq "GET" "/bye")).response = some { status := 200, body := "Bye" } :=
  ⟨(registered_routes_literal_responses (sampleReq "GET" "/hi")).1 rfl rfl,
   (registered_routes_literal_responses (sampleReq "GET" "/bye")).2 rfl rfl⟩
/-- C2 counterexample: `myMiddleware` is not a handler factory with a default
name "World" — run on a concrete GET /bye request, the unit it denotes logs
no line containing "Hello, World"; its only log line is the fixed string
"Hello, from my middleware". -/
theorem myMiddleware_not_configurable_greeter :
    ((myMiddleware.run (sampleReq "GET" "/bye")).logs.any
      fun l => stringContains l "Hello, World") = false ∧
    (myMiddleware.run (sampleReq "GET" "/bye")).logs = ["Hello, from my middleware"] := by
  decide

/-- C2 (amended): `myMiddleware` takes no configuration argument — it is a
plain handler whose only log line on any request is the fixed string
"Hello, from my middleware" (which does not contain "Hello, World"); it is
bound to no route, and a GET request to /bye yields status 200 with body
"Bye" and produces no log line at all. -/
theorem myMiddleware_fixed_log_bye_unaffected (req : Request) :
    (myMiddleware.run req).logs = ["Hello, from my middleware"] ∧
    stringContains "Hello, from my middleware" "Hello, World" = false ∧
    (req.method = "GET" → req.path = "/bye" →
      (dispatch app req).response = some { status := 200, body := "Bye" } ∧
      (dispatch app req).logs = []) := by
  refine ⟨rfl, by decide, fun hm hp => ?_⟩
  simp only [dispatch, dispatchSeq, findRoute_app, hm, hp]
  simp [runSeq, finish, byeRoute, byeHandler]

/-- C2 witness: the amended claim at a concrete GET /bye request. -/
theorem myMiddleware_fixed_log_bye_unaffected_witness :
    (myMiddleware.run (sampleReq "GET" "/bye")).logs = ["Hello, from my middleware"] ∧
    stringContains "Hello, from my middleware" "Hello, World" = false ∧
    ((dispatch app (sampleReq "GET" "/bye")).response = some { status := 200, body := "Bye" } ∧
      (dispatch app (sampleReq "GET" "/bye")).logs = []) := by
  have h := myMiddleware_fixed_log_bye_unaffected (sampleReq "GET" "/bye")
  exact ⟨h.1, h.2.1, h.2.2 rfl rfl⟩

/-- C3 counterexample: not every handler unit defined in the program either
writes a response or invokes its continuation exactly once — `myMiddleware`
(defined at src/index.js lines 4-6 but never registered), run on a concrete
request, writes no response and invokes no continuation. -/
theorem unit_invariant_fails_for_myMiddleware :
    ¬ (∀ h ∈ programUnits, ∀ req : Request,
        (h.run req).response.isSome = true ∨ (h.run req).nextCalls = 1) := by
  intro hall
  have := hall myMiddleware (List.Mem.head _) (sampleReq "GET" "/hi")
  simp [myMiddleware] at this

/-- C3 (amended): every handler unit actually registered on the application
(the two terminal handlers; there is no registered middleware), for every
request, either writes a response or invokes its continuation exactly once;
the defined-but-unregistered `myMiddleware` does neither, but it is never
part of any dispatch sequence. -/
theorem registered_units_respect_invariant (h : Handler)
    (hmem : h ∈ registeredUnits app) (req : Request) :
    (h.run req).response.isSome = true ∨ (h.run req).nextCalls = 1 := by
  have e : registeredUnits app = [hiHandler, byeHandler] := rfl
  rw [e] at hmem
  simp only [List.mem_cons, List.not_mem_nil, or_false] at hmem
  rcases hmem with rfl | rfl
  · left; rfl
  · left; rfl

/-- C3 witness: the invariant holds for the /hi terminal handler at a
concrete request. -/
theorem registered_units_respect_invariant_witness :
    (hiHandler.run (sampleReq "GET" "/hi")).response.isSome = true ∨
    (hiHandler.run (sampleReq "GET" "/hi")).nextCalls = 1 :=
  registered_units_respect_invariant hiHandler (List.Mem.head _) (sampleReq "GET" "/hi")

/-- C8: `myMiddleware` is a plain handler, not a factory — it declares
exactly two parameters (req, res), on any request its only effect is logging
the fixed string "Hello, from my middleware", it never writes a response,
and it never invokes a continuation. -/
theorem myMiddleware_plain_two_param_logger (req : Request) :
    myMiddleware.arity = 2 ∧
    (myMiddleware.run req).logs = ["Hello, from my middleware"] ∧
    (myMiddleware.run req).response = none ∧
    (myMiddleware.run req).nextCalls = 0 ∧
    (myMiddleware.run req).exn = none :=
  ⟨rfl, rfl, rfl, rfl, rfl⟩
/-- C4: for every incoming request (including requests to unregistered
paths), dispatch runs exactly the effective sequence formed by the global
units, then the route-specific units, then the terminal handler, in
registration order; every global unit runs exactly once, and the trace
starts with all the global units before any route-specific unit. -/
theorem dispatch_runs_effective_sequence (req : Request) :
    (dispatch app req).trace = (specEffectiveSeq app req).map Handler.name ∧
    (app.globalUnits.all fun g => (dispatch app req).trace.count g.name == 1) = true ∧
    (dispatch app req).trace =
      (app.globalUnits.map Handler.name) ++
        ((dispatch app req).trace.drop app.globalUnits.length) := by
  by_cases h1 : req.method = "GET"
  · by_cases h2 : req.path = "/hi"
    · simp only [dispatch, dispatchSeq, specEffectiveSeq, findRoute_app, h1, h2]
      simp [runSeq, finish, hiRoute, hiHandler, app]
    · by_cases h3 : req.path = "/bye"
      · simp only [dispatch, dispatchSeq, specEffectiveSeq, findRoute_app, h1, h2, h3]
        simp [runSeq, finish, byeRoute, byeHandler, app]
      · simp only [dispatch, dispatchSeq, specEffectiveSeq, findRoute_app, h1, h2, h3]
        simp [runSeq, finish, app]
  · simp only [dispatch, dispatchSeq, specEffectiveSeq, findRoute_app, h1]
    simp [runSeq, finish, app]

/-- C5: a request to any path other than the registered GET /hi and GET /bye
yields the default not-found response with status 404, emitted because the
handler sequence is exhausted without a terminal response. -/
theorem unregistered_path_404 (req : Request)
    (hhi : ¬ (req.method = "GET" ∧ req.path = "/hi"))
    (hbye : ¬ (req.method = "GET" ∧ req.path = "/bye")) :
    (dispatch app req).response = some (notFoundResponse req) ∧
    (notFoundResponse req).status = 404 ∧
    (runSeq req (dispatchSeq app req)).outcome = SeqOutcome.exhausted := by
  have e : findRoute app req = none := by
    rw [findRoute_app]
    simp [hhi, hbye]
  simp only [dispatch, dispatchSeq, e]
  simp [runSeq, finish, app, notFoundResponse]

/-- C5 witness: GET /nope gets the default 404. -/
theorem unregistered_path_404_witness :
    (dispatch app (sampleReq "GET" "/nope")).response =
      some (notFoundResponse (sampleReq "GET" "/nope")) ∧
    (notFoundResponse (sampleReq "GET" "/nope")).status = 404 ∧
    (runSeq (sampleReq "GET" "/nope")
      (dispatchSeq app (sampleReq "GET" "/nope"))).outcome = SeqOutcome.exhausted :=
  unregistered_path_404 (sampleReq "GET" "/nope") (by decide) (by decide)

/-- C6: if a handler unit throws instead of invoking its continuation or
writing a response, the pipeline catches it, responds with the default 500
internal-error response, and logs the error; the connection is not left
hanging (a response is always produced). -/
theorem throwing_unit_yields_500 (req : Request) (h : Handler)
    (rest : List Handler) (m : String) (hx : (h.run req).exn = some m) :
    (finish req (runSeq req (h :: rest))).response = some internalErrorResponse ∧
    internalErrorResponse.status = 500 ∧
    ("Error: " ++ m) ∈ (finish req (runSeq req (h :: rest))).logs := by
  simp only [runSeq, hx]
  simp [finish, internalErrorResponse]

/-- C6 witness: a pipeline whose only unit throws responds 500 and logs it. -/
theorem throwing_unit_yields_500_witness :
    (finish (sampleReq "GET" "/hi")
      (runSeq (sampleReq "GET" "/hi") [boomHandler])).response = some internalErrorResponse ∧
    internalErrorResponse.status = 500 ∧
    ("Error: " ++ "boom") ∈
      (finish (sampleReq "GET" "/hi") (runSeq (sampleReq "GET" "/hi") [boomHandler])).logs :=
  throwing_unit_yields_500 (sampleReq "GET" "/hi") boomHandler [] "boom" rfl

/-- C7: the program listens on the fixed port 3000, reads no flags and no
environment variables, logs the startup line, exits 0 on clean shutdown,
and exits non-zero with a diagnostic on startup failure such as the port
already being in use. -/
theorem startup_fixed_port_exit_codes :
    listenPort = 3000 ∧
    listenLogLine = "Listening on port 3000" ∧
    cliFlags = [] ∧
    consumedEnvVars = [] ∧
    (startProcess false).exitCode = 0 ∧
    (startProcess true).exitCode ≠ 0 ∧
    (startProcess true).diagnostic.isSome = true := by
  refine ⟨rfl, rfl, rfl, rfl, rfl, ?_, rfl⟩
  decide

/-- C9: no middleware is registered on the application — the global list and
every route's middleware list are empty, the only units dispatch can run are
the two terminal handlers, and every request's trace is exactly its route's
terminal handler (or empty, with the default 404 response, for unregistered
paths). -/
theorem no_middleware_registered (req : Request) :
    registeredMiddleware app = [] ∧
    (registeredUnits app).map Handler.name = ["hiHandler", "byeHandler"] ∧
    (dispatch app req).trace =
      (match findRoute app req with
       | some rt => [rt.terminal.name]
       | none => []) ∧
    (dispatch app req).response =
      (match findRoute app req with
       | some rt => (rt.terminal.run req).response
       | none => some (notFoundResponse req)) := by
  refine ⟨rfl, rfl, ?_⟩
  by_cases h1 : req.method = "GET"
  · by_cases h2 : req.path = "/hi"
    · simp only [dispatch, dispatchSeq, findRoute_app, h1, h2]
      simp [runSeq, finish, hiRoute, hiHandler, app]
    · by_cases h3 : req.path = "/bye"
      · simp only [dispatch, dispatchSeq, findRoute_app, h1, h2, h3]
        simp [runSeq, finish, byeRoute, byeHandler, app]
      · simp only [dispatch, dispatchSeq, findRoute_app, h1, h2, h3]
        simp [runSeq, finish, app]
  · simp only [dispatch, dispatchSeq, findRoute_app, h1]
    simp [runSeq, finish, app]

/-- C10: the terminal handlers for /hi and /bye never read the request —
any two requests dispatched to the same one of these routes produce
identical dispatch results (same response status and body, same logs, same
trace), whatever their headers, query or body. -/
theorem same_route_constant_response (p : String) (hp : p = "/hi" ∨ p = "/bye")
    (r1 r2 : Request) (h1m : r1.method = "GET") (h1p : r1.path = p)
    (h2m : r2.method = "GET") (h2p : r2.path = p) :
    dispatch app r1 = dispatch app r2 := by
  rcases hp with rfl | rfl
  · have d1 : dispatch app r1 =
        { logs := [], trace := ["hiHandler"],
          response := some { status := 200, body := "Hi" } } := by
      simp only [dispatch, dispatchSeq, findRoute_app, h1m, h1p]
      simp [runSeq, finish, hiRoute, hiHandler, app]
    have d2 : dispatch app r2 =
        { logs := [], trace := ["hiHandler"],
          response := some { status := 200, body := "Hi" } } := by
      simp only [dispatch, dispatchSeq, findRoute_app, h2m, h2p]
      simp [runSeq, finish, hiRoute, hiHandler, app]
    rw [d1, d2]
  · have d1 : dispatch app r1 =
        { logs := [], trace := ["byeHandler"],
          response := some { status := 200, body := "Bye" } } := by
      simp only [dispatch, dispatchSeq, findRoute_app, h1m, h1p]
      simp [runSeq, finish, byeRoute, byeHandler, app]
    have d2 : dispatch app r2 =
        { logs := [], trace := ["byeHandler"],
          response := some { status := 200, body := "Bye" } } := by
      simp only [dispatch, dispatchSeq, findRoute_app, h2m, h2p]
      simp [runSeq, finish, byeRoute, byeHandler, app]
    rw [d1, d2]

/-- C10 witness: two GET /hi requests differing in headers, query and body
produce the same dispatch result. -/
theorem same_route_constant_response_witness :
    dispatch app
      { method := "GET", path := "/hi", headers := [("authorization", "secret")],
        query := [("q", "1")], body := "payload" } =
    dispatch app (sampleReq "GET" "/hi") :=
  same_route_constant_response "/hi" (Or.inl rfl) _ _ rfl rfl rfl rfl
